import Mathlib

/-!
Verification of the civic-issue reporting backend (issue controller, issue
schema, chat controller).  The definitions below are a shallow embedding of
the JavaScript source: Mongo ObjectIds are modelled as natural numbers,
JS numbers holding integral counters as `Int`, JS `Date` values as natural
numbers of milliseconds since the epoch, and the floating-point arithmetic
of `Math.round(a/b)` as exact rational arithmetic (all quantities involved
in the source are small dyadic rationals, where both agree).
-/

namespace CivicIssues

/-- Mongo ObjectId of a user, modelled as a natural number. -/
abbrev UserId := Nat

/-- Mongo ObjectId of an issue, modelled as a natural number. -/
abbrev IssueId := Nat

/-- The `status` enumeration of the issue schema:
`['pending', 'acknowledged', 'assigned', 'in-progress', 'resolved', 'rejected', 'closed']`.
The schema's enum validator rejects any other string on save, so the embedding
uses an inductive type. -/
inductive Status where
  | pending
  | acknowledged
  | assigned
  | inProgress
  | resolved
  | rejected
  | closed
deriving DecidableEq, Repr

/-- String form of a status, as it appears in the database and in
interpolated message strings. -/
def statusToString : Status → String
  | .pending => "pending"
  | .acknowledged => "acknowledged"
  | .assigned => "assigned"
  | .inProgress => "in-progress"
  | .resolved => "resolved"
  | .rejected => "rejected"
  | .closed => "closed"

/-- One entry of the embedded `statusHistory` array
(`{status, updatedBy, comment, timestamp}`). -/
structure HistoryEntry where
  status : Status
  updatedBy : Option UserId
  comment : String
  timestamp : Nat
deriving DecidableEq, Repr

/-- One entry of the embedded `notifications` array
(`{message, type, timestamp, read}`).  The `type` enum of the schema is kept
as a plain string. -/
structure Notification where
  message : String
  ntype : String
  timestamp : Nat
  read : Bool
deriving DecidableEq, Repr

/-- The stored `location` subdocument (GeoJSON point).  Coordinates are the JS
numbers `[longitude, latitude]`, modelled as exact rationals. -/
structure StoredLocation where
  coordinates : List ℚ
  address : String
  city : Option String
  state : Option String
  pincode : Option String
deriving DecidableEq, Repr

/-- The `resolutionDetails` subdocument. -/
structure ResolutionDetails where
  resolvedBy : Option UserId
  resolutionDate : Option Nat
  resolutionDescription : String
  resolutionImages : List String
deriving DecidableEq, Repr

/-- An issue document, following `issueSchema` field by field (including the
clustering fields added by `issueSchema.add`: `mergedInto`, `duplicates`,
`reporters`).  `assignedTo` is flattened into its two components. -/
structure Issue where
  id : IssueId
  title : String
  description : String
  category : String
  location : StoredLocation
  images : List String
  voiceNote : Option String
  reportedBy : UserId
  assignedToDepartment : Option String
  assignedToOfficial : Option UserId
  status : Status
  votes : Int
  voters : List UserId
  priority : String
  statusHistory : List HistoryEntry
  notifications : List Notification
  estimatedResolutionTime : Int
  actualResolutionTime : Option Int
  resolutionDetails : Option ResolutionDetails
  createdAt : Nat
  mergedInto : Option IssueId
  duplicates : List IssueId
  reporters : List UserId
deriving DecidableEq, Repr

/-! ## Voting (`IssueController.voteOnIssue`)

```js
const hasVoted = issue.voters.includes(userId);
if (hasVoted) {
    issue.voters = issue.voters.filter(id => id.toString() !== userId);
    issue.votes = Math.max(0, issue.votes - 1);
} else {
    issue.voters.push(userId);
    issue.votes += 1;
}
```
-/

/-- The vote-toggle mutation performed by `voteOnIssue` on a found issue. -/
def voteOnIssue (i : Issue) (u : UserId) : Issue :=
  if u ∈ i.voters then
    { i with voters := i.voters.filter (fun v => v ≠ u), votes := max 0 (i.votes - 1) }
  else
    { i with voters := i.voters ++ [u], votes := i.votes + 1 }

/-- A sequence of vote-toggle operations, one per listed user (users may
repeat: each occurrence is one press of the vote button). -/
def applyVotes (i : Issue) (users : List UserId) : Issue :=
  users.foldl voteOnIssue i

theorem voteOnIssue_of_mem {i : Issue} {u : UserId} (h : u ∈ i.voters) :
    voteOnIssue i u =
      { i with voters := i.voters.filter (fun v => v ≠ u), votes := max 0 (i.votes - 1) } := by
  simp [voteOnIssue, h]

theorem voteOnIssue_of_not_mem {i : Issue} {u : UserId} (h : u ∉ i.voters) :
    voteOnIssue i u = { i with voters := i.voters ++ [u], votes := i.votes + 1 } := by
  simp [voteOnIssue, h]

theorem filter_ne_toFinset (l : List UserId) (u : UserId) :
    (l.filter (fun v => v ≠ u)).toFinset = l.toFinset.erase u := by
  ext x
  simp [List.mem_filter, Finset.mem_erase, and_comm]

/-- C2: toggling the same user's vote twice restores `votes` and the set of
`voters` to their pre-toggle values, for any issue satisfying the documented
invariant `votes == |voters|`. -/
theorem vote_toggle_roundtrip (i : Issue) (u : UserId)
    (h : i.votes = (i.voters.toFinset.card : ℤ)) :
    (voteOnIssue (voteOnIssue i u) u).votes = i.votes ∧
    (voteOnIssue (voteOnIssue i u) u).voters.toFinset = i.voters.toFinset := by
  by_cases hm : u ∈ i.voters
  · have hcard : 1 ≤ i.voters.toFinset.card :=
      Finset.card_pos.mpr ⟨u, List.mem_toFinset.mpr hm⟩
    have h1 := voteOnIssue_of_mem hm
    have hnm : u ∉ (voteOnIssue i u).voters := by
      rw [h1]
      simp [List.mem_filter]
    have h2 := voteOnIssue_of_not_mem hnm
    rw [h2, h1]
    constructor
    · simp only
      omega
    · simp only
      ext x
      simp only [List.toFinset_append, Finset.mem_union, List.mem_toFinset, List.mem_filter,
        List.mem_singleton, decide_eq_true_eq]
      by_cases hx : x = u
      · subst hx; simp [hm]
      · simp [hx]
  · have h1 := voteOnIssue_of_not_mem hm
    have hmem : u ∈ (voteOnIssue i u).voters := by
      rw [h1]; simp
    have h2 := voteOnIssue_of_mem hmem
    rw [h2, h1]
    have hfilter : (i.voters ++ [u]).filter (fun v => v ≠ u) = i.voters := by
      have hl : i.voters.filter (fun v => v ≠ u) = i.voters := by
        apply List.filter_eq_self.mpr
        intro a ha
        simp only [decide_eq_true_eq]
        exact fun hau => hm (hau ▸ ha)
      rw [List.filter_append, hl]
      simp
    constructor
    · simp only
      have : (0 : ℤ) ≤ i.votes := by rw [h]; positivity
      omega
    · simp only [hfilter]

/-- Concrete application of `vote_toggle_roundtrip` (issue with one voter). -/
def sampleVoteIssue : Issue :=
  { id := 0, title := "t", description := "d", category := "Other",
    location := { coordinates := [0, 0], address := "a", city := none, state := none,
                  pincode := none },
    images := [], voiceNote := none, reportedBy := 1,
    assignedToDepartment := none, assignedToOfficial := none,
    status := .pending, votes := 1, voters := [5], priority := "low",
    statusHistory := [⟨.pending, none, "Issue reported by citizen", 0⟩],
    notifications := [], estimatedResolutionTime := 72,
    actualResolutionTime := none, resolutionDetails := none, createdAt := 0,
    mergedInto := none, duplicates := [], reporters := [1] }

/-- C2 witness: the round-trip theorem applied to a concrete issue and voter. -/
theorem vote_toggle_roundtrip_witness :
    (voteOnIssue (voteOnIssue sampleVoteIssue 5) 5).votes = sampleVoteIssue.votes ∧
    (voteOnIssue (voteOnIssue sampleVoteIssue 5) 5).voters.toFinset =
      sampleVoteIssue.voters.toFinset :=
  vote_toggle_roundtrip sampleVoteIssue 5 (by decide)

theorem vote_invariant_step (i : Issue) (u : UserId)
    (h : i.votes = (i.voters.toFinset.card : ℤ)) :
    (voteOnIssue i u).votes = ((voteOnIssue i u).voters.toFinset.card : ℤ) := by
  by_cases hm : u ∈ i.voters
  · have hcard : 1 ≤ i.voters.toFinset.card :=
      Finset.card_pos.mpr ⟨u, List.mem_toFinset.mpr hm⟩
    rw [voteOnIssue_of_mem hm]
    simp only [filter_ne_toFinset]
    rw [Finset.card_erase_of_mem (List.mem_toFinset.mpr hm)]
    omega
  · rw [voteOnIssue_of_not_mem hm]
    simp only [List.toFinset_append, List.toFinset_cons, List.toFinset_nil]
    rw [show i.voters.toFinset ∪ insert u ∅ = insert u i.voters.toFinset by
      ext x; simp [or_comm]]
    rw [Finset.card_insert_of_not_mem (fun hc => hm (List.mem_toFinset.mp hc))]
    omega

/-- C3: the invariant `votes = |voters|` (cardinality of the voter set) is
preserved by any sequence of vote-toggle operations. -/
theorem votes_eq_card_after_any_votes (i : Issue) (users : List UserId)
    (h : i.votes = (i.voters.toFinset.card : ℤ)) :
    (applyVotes i users).votes = ((applyVotes i users).voters.toFinset.card : ℤ) := by
  induction users generalizing i with
  | nil => simpa [applyVotes] using h
  | cons u rest ih =>
      have hstep := vote_invariant_step i u h
      simpa [applyVotes] using ih (voteOnIssue i u) hstep

/-- C3 witness: the invariant theorem applied to a concrete issue and a
concrete sequence of toggles (add, add, remove, add by various users). -/
theorem votes_eq_card_after_any_votes_witness :
    (applyVotes sampleVoteIssue [7, 5, 7, 9]).votes =
      ((applyVotes sampleVoteIssue [7, 5, 7, 9]).voters.toFinset.card : ℤ) :=
  votes_eq_card_after_any_votes sampleVoteIssue [7, 5, 7, 9] (by decide)

/-! ## Estimated resolution time (`calculateEstimatedResolutionTime`)

```js
const base = baseHours[category] || 48;
const multiplier = priorityMultiplier[priority] || 1;
return Math.round(base * multiplier);
```
All quantities are small dyadic rationals, so JS float arithmetic is exact and
is modelled by `ℚ`.  `Math.round` rounds half toward positive infinity, i.e.
`Math.round(x) = ⌊x + 1/2⌋`. -/

/-- JS `Math.round` on an exactly-represented rational. -/
def jsRoundQ (q : ℚ) : ℤ := ⌊q + 1 / 2⌋

/-- The `baseHours` lookup table of the source, with its `|| 48` default for
categories outside the table (plain-object own-property lookup). -/
def baseHours (category : String) : ℚ :=
  if category = "Roads & Infrastructure" then 72
  else if category = "Waste Management" then 24
  else if category = "Electricity" then 48
  else if category = "Water Supply" then 48
  else if category = "Sewage & Drainage" then 48
  else if category = "Traffic & Transportation" then 24
  else if category = "Public Safety" then 12
  else if category = "Parks & Recreation" then 72
  else if category = "Street Lighting" then 24
  else if category = "Noise Pollution" then 48
  else if category = "Other" then 48
  else 48

/-- The `priorityMultiplier` lookup table of the source (`0.25`, `0.5`, `1`,
`1.5` written as exact rationals), with its `|| 1` default. -/
def priorityMultiplier (priority : String) : ℚ :=
  if priority = "urgent" then 1 / 4
  else if priority = "high" then 1 / 2
  else if priority = "medium" then 1
  else if priority = "low" then 3 / 2
  else 1

/-- The source helper `calculateEstimatedResolutionTime(category, priority)`. -/
def calculateEstimatedResolutionTime (category priority : String) : ℤ :=
  jsRoundQ (baseHours category * priorityMultiplier priority)

/-- Modelled from the spec: the helper `estimateResolutionHours(category,
priority) = round(baseHoursForCategory(category) * priorityMultiplier(priority))`
with multipliers urgent ↦ 0.25, high ↦ 0.5, medium ↦ 1, low ↦ 1.5 and the fixed
per-category base-hours table defaulting to 48 for unknown categories.  Written
from the spec's words for the refinement comparison against
`calculateEstimatedResolutionTime`. -/
def estimateResolutionHours (category priority : String) : ℤ :=
  let specBase : ℚ :=
    if category = "Roads & Infrastructure" then 72
    else if category = "Waste Management" then 24
    else if category = "Electricity" then 48
    else if category = "Water Supply" then 48
    else if category = "Sewage & Drainage" then 48
    else if category = "Traffic & Transportation" then 24
    else if category = "Public Safety" then 12
    else if category = "Parks & Recreation" then 72
    else if category = "Street Lighting" then 24
    else if category = "Noise Pollution" then 48
    else if category = "Other" then 48
    else 48
  let specMultiplier : ℚ :=
    if priority = "urgent" then 1 / 4
    else if priority = "high" then 1 / 2
    else if priority = "medium" then 1
    else 3 / 2
  jsRoundQ (specBase * specMultiplier)

/-- C8: for every category string and every priority of the priority enum, the
source's `calculateEstimatedResolutionTime` equals the spec's
`estimateResolutionHours` formula, and the two pinned values hold:
Public Safety/urgent ↦ 3 and Roads & Infrastructure/low ↦ 108. -/
theorem calculateEstimatedResolutionTime_spec (category priority : String)
    (hp : priority ∈ ["urgent", "high", "medium", "low"]) :
    calculateEstimatedResolutionTime category priority =
      estimateResolutionHours category priority ∧
    calculateEstimatedResolutionTime "Public Safety" "urgent" = 3 ∧
    calculateEstimatedResolutionTime "Roads & Infrastructure" "low" = 108 := by
  refine ⟨?_,
    by simp only [calculateEstimatedResolutionTime, baseHours, priorityMultiplier, jsRoundQ,
          String.reduceEq, reduceIte]
       norm_num,
    by simp only [calculateEstimatedResolutionTime, baseHours, priorityMultiplier, jsRoundQ,
          String.reduceEq, reduceIte]
       norm_num⟩
  fin_cases hp <;> rfl

/-- C8 witness: the theorem applied at a concrete category and priority. -/
theorem calculateEstimatedResolutionTime_spec_witness :
    (calculateEstimatedResolutionTime "Water Supply" "high" =
      estimateResolutionHours "Water Supply" "high" ∧
    calculateEstimatedResolutionTime "Public Safety" "urgent" = 3 ∧
    calculateEstimatedResolutionTime "Roads & Infrastructure" "low" = 108) :=
  calculateEstimatedResolutionTime_spec "Water Supply" "high" (by decide)

/-! ## Listing pagination parameters (`IssueController.getAllIssues`)

```js
const { ..., page = 1, limit = 10, ... } = req.query;
...
const options = { page: parseInt(page), limit: parseInt(limit), ... };
```
The destructuring defaults `1` and `10` apply only when the query parameter is
absent (`undefined`); a present value is passed to `parseInt`, which yields
`NaN` when the string has no leading decimal integer.  `none` in the result
models `NaN`. -/

/-- JS `parseInt` on a string (decimal case): skip leading whitespace, read an
optional sign and then leading decimal digits; no digits means `NaN` (`none`).
(The hexadecimal `0x` form never arises for these query parameters.) -/
def parseIntJS (s : String) : Option ℤ :=
  let cs := s.toList.dropWhile (fun c => c = ' ' || c = '\t' || c = '\n' || c = '\r')
  let signAndRest : Bool × List Char :=
    match cs with
    | '-' :: r => (true, r)
    | '+' :: r => (false, r)
    | r => (false, r)
  let digits := signAndRest.2.takeWhile (fun c => c.isDigit)
  if digits.isEmpty then none
  else
    let n : ℕ := digits.foldl (fun acc c => acc * 10 + (c.toNat - '0'.toNat)) 0
    some (if signAndRest.1 then -(n : ℤ) else (n : ℤ))

/-- The `page` value placed into the pagination options: destructuring default
`1` when the parameter is absent, otherwise `parseInt` of the given string. -/
def effectivePage (pageParam : Option String) : Option ℤ :=
  match pageParam with
  | none => some 1
  | some s => parseIntJS s

/-- The `limit` value placed into the pagination options: destructuring default
`10` when the parameter is absent, otherwise `parseInt` of the given string. -/
def effectiveLimit (limitParam : Option String) : Option ℤ :=
  match limitParam with
  | none => some 10
  | some s => parseIntJS s

/-- C5 counterexample: a present but non-numeric `page`/`limit` parameter does
not behave as the defaults `page = 1`, `limit = 10`; it produces `NaN`
(no integer) in the pagination options. -/
theorem malformed_page_param_does_not_default :
    ¬ (effectivePage (some "abc") = some 1 ∧ effectiveLimit (some "abc") = some 10) := by
  decide

/-- C5 (amended): the defaults `page = 1` and `limit = 10` apply exactly when
the parameter is absent; a present parameter that `parseInt` cannot parse
yields `NaN` (`none`) in the pagination options instead of the defaults. -/
theorem pagination_defaults_absent_only (s : String) (h : parseIntJS s = none) :
    effectivePage none = some 1 ∧ effectiveLimit none = some 10 ∧
    effectivePage (some s) = none ∧ effectiveLimit (some s) = none := by
  exact ⟨rfl, rfl, by simp [effectivePage, h], by simp [effectiveLimit, h]⟩

/-- C5 witness: the amended statement at the concrete malformed string. -/
theorem pagination_defaults_absent_only_witness :
    effectivePage none = some 1 ∧ effectiveLimit none = some 10 ∧
    effectivePage (some "abc") = none ∧ effectiveLimit (some "abc") = none :=
  pagination_defaults_absent_only "abc" (by decide)

/-! ## Single-issue read (`IssueController.getIssueById`)

```js
const issue = await Issue.findById(req.params.id)...
if (req.user && req.user.id === issue.reportedBy._id.toString()) {
    issue.notifications.forEach(notification => { notification.read = true; });
    await issue.save();
}
```
-/

/-- The state of the stored issue record after `getIssueById` runs, as a
function of the (optional) authenticated requester. -/
def getIssueById (issue : Issue) (requester : Option UserId) : Issue :=
  match requester with
  | some uid =>
      if uid = issue.reportedBy then
        { issue with notifications := issue.notifications.map (fun n => { n with read := true }) }
      else issue
  | none => issue

/-- A stored issue with one unread notification, owned by reporter 1. -/
def sampleReadIssue : Issue :=
  { sampleVoteIssue with
    notifications := [⟨"Your issue has been successfully reported and is under review",
      "status_change", 0, false⟩] }

/-- C6 counterexample: a read of an existing issue by its reporter mutates the
stored record (all notifications are marked read and the document is saved),
so the read is not side-effect free for every user. -/
theorem getIssueById_mutates_for_reporter :
    getIssueById sampleReadIssue (some sampleReadIssue.reportedBy) ≠ sampleReadIssue := by
  decide

/-- C6 (amended): a single-issue read leaves the stored record unchanged for
every requester other than the issue's reporter (and for unauthenticated
reads); a read by the reporter marks all of the issue's notifications as
read. -/
theorem getIssueById_frame_nonreporter (issue : Issue) (uid : UserId)
    (h : uid ≠ issue.reportedBy) :
    getIssueById issue (some uid) = issue ∧ getIssueById issue none = issue := by
  refine ⟨?_, rfl⟩
  simp [getIssueById, h]

/-- C6 witness: the amended frame property at a concrete non-reporter. -/
theorem getIssueById_frame_nonreporter_witness :
    getIssueById sampleReadIssue (some 2) = sampleReadIssue ∧
    getIssueById sampleReadIssue none = sampleReadIssue :=
  getIssueById_frame_nonreporter sampleReadIssue 2 (by decide)

/-! ## Resolution timing (`Math.round((resolvedAt - createdAt) / (1000*60*60))`) -/

/-- Milliseconds per hour, the divisor `1000 * 60 * 60` of the source. -/
def msPerHour : ℕ := 3600000

/-- JS `Math.round(n / d)` for an integer number of milliseconds `n` and a
positive integer divisor `d`: round half toward positive infinity, i.e.
`⌊n/d + 1/2⌋`, computed as a single floor division. -/
def jsRound (n : ℤ) (d : ℕ) : ℤ := (2 * n + (d : ℤ)) / ((2 * d : ℕ) : ℤ)

theorem jsRound_eq_floor (n : ℤ) (d : ℕ) (hd : 0 < d) :
    jsRound n d = ⌊(n : ℚ) / (d : ℚ) + 1 / 2⌋ := by
  have hcast : (n : ℚ) / (d : ℚ) + 1 / 2 = ((2 * n + (d : ℤ) : ℤ) : ℚ) / ((2 * d : ℕ) : ℚ) := by
    have hd0 : ((d : ℚ)) ≠ 0 := by positivity
    push_cast
    field_simp
    ring
  rw [jsRound, hcast, Rat.floor_intCast_div_natCast]

theorem jsRound_nonneg (n : ℤ) (d : ℕ) (hn : 0 ≤ n) : 0 ≤ jsRound n d := by
  apply Int.ediv_nonneg <;> omega

/-! ## Status updates (`IssueController.updateIssueStatus`)

```js
const oldStatus = issue.status;
issue.status = status;
issue.statusHistory.push({ status, updatedBy: req.user.id,
    comment: comment || `Status changed from ${oldStatus} to ${status}`,
    timestamp: new Date() });
if (status === 'resolved') {
    const resolutionTimeHours = Math.round((resolvedAt - createdAt) / (1000*60*60));
    issue.resolutionDetails = { resolvedBy: req.user.id, resolutionDate: resolvedAt,
        resolutionDescription: resolutionDetails?.description || 'Issue has been resolved',
        resolutionImages: resolutionDetails?.images || [] };
    issue.actualResolutionTime = resolutionTimeHours;
    issue.notifications.push({ message: 'Your issue has been resolved! ...', type: 'resolution', ... });
} else {
    issue.notifications.push({ message: `Your issue status has been updated to: ${status}`,
        type: 'status_change', ... });
}
```
-/

/-- The mutation performed by `updateIssueStatus` on a found issue, by a
government actor.  `now` is the current time in milliseconds. -/
def updateIssueStatus (i : Issue) (status : Status) (actor : UserId)
    (comment : Option String) (resDescription : Option String)
    (resImages : Option (List String)) (now : Nat) : Issue :=
  let oldStatus := i.status
  let i1 := { i with
    status := status,
    statusHistory := i.statusHistory ++
      [({ status := status, updatedBy := some actor,
          comment := comment.getD ("Status changed from " ++ statusToString oldStatus ++
            " to " ++ statusToString status),
          timestamp := now } : HistoryEntry)] }
  if status = .resolved then
    let resolutionTimeHours := jsRound ((now : ℤ) - (i.createdAt : ℤ)) msPerHour
    { i1 with
      resolutionDetails := some ({ resolvedBy := some actor,
                                   resolutionDate := some now,
                                   resolutionDescription := resDescription.getD "Issue has been resolved",
                                   resolutionImages := resImages.getD [] } : ResolutionDetails),
      actualResolutionTime := some resolutionTimeHours,
      notifications := i1.notifications ++
        [({ message := "Your issue has been resolved! Thank you for reporting.",
            ntype := "resolution", timestamp := now, read := false } : Notification)] }
  else
    { i1 with
      notifications := i1.notifications ++
        [({ message := "Your issue status has been updated to: " ++ statusToString status,
            ntype := "status_change", timestamp := now, read := false } : Notification)] }

/-- C7: transitioning an issue to `resolved` sets `actualResolutionTime` to the
rounded number of hours between the creation timestamp and the transition time
(non-negative whenever the transition is not before creation) and populates
`resolutionDetails.resolvedBy` with the acting user. -/
theorem resolved_transition_metrics (i : Issue) (actor : UserId)
    (comment resDescription : Option String) (resImages : Option (List String))
    (now : Nat) (h : i.createdAt ≤ now) :
    (updateIssueStatus i .resolved actor comment resDescription resImages now).actualResolutionTime
        = some ⌊((now : ℚ) - (i.createdAt : ℚ)) / (msPerHour : ℚ) + 1 / 2⌋ ∧
    (∀ r, (updateIssueStatus i .resolved actor comment resDescription resImages now).actualResolutionTime
        = some r → 0 ≤ r) ∧
    (updateIssueStatus i .resolved actor comment resDescription resImages now).resolutionDetails.map
        ResolutionDetails.resolvedBy = some (some actor) := by
  have hval : (updateIssueStatus i .resolved actor comment resDescription resImages now).actualResolutionTime
      = some (jsRound ((now : ℤ) - (i.createdAt : ℤ)) msPerHour) := by
    simp [updateIssueStatus]
  refine ⟨?_, ?_, ?_⟩
  · rw [hval, jsRound_eq_floor _ _ (by norm_num [msPerHour])]
    norm_num
  · intro r hr
    rw [hval] at hr
    have hj := jsRound_nonneg ((now : ℤ) - (i.createdAt : ℤ)) msPerHour (by omega)
    injection hr with hr'
    omega
  · simp [updateIssueStatus]

/-- C7 witness: resolving a concrete issue 90 minutes after creation. -/
theorem resolved_transition_metrics_witness :
    (updateIssueStatus sampleVoteIssue .resolved 3 none none none 5400000).actualResolutionTime
        = some ⌊((5400000 : ℚ) - ((sampleVoteIssue.createdAt : ℚ))) / (msPerHour : ℚ) + 1 / 2⌋ ∧
    (∀ r, (updateIssueStatus sampleVoteIssue .resolved 3 none none none 5400000).actualResolutionTime
        = some r → 0 ≤ r) ∧
    (updateIssueStatus sampleVoteIssue .resolved 3 none none none 5400000).resolutionDetails.map
        ResolutionDetails.resolvedBy = some (some 3) :=
  resolved_transition_metrics sampleVoteIssue 3 none none none 5400000 (by decide)

/-! ## Assignment (`IssueController.assignIssue`)

```js
issue.assignedTo = { department, official: officialId || null };
issue.status = 'assigned';
issue.statusHistory.push({ status: 'assigned', updatedBy: req.user.id,
    comment: comment || `Issue assigned to ${department} department${officialId ? ' and specific official' : ''}`,
    timestamp: new Date() });
issue.notifications.push({ message: `Your issue has been assigned to the ${department} department`,
    type: 'assignment', timestamp: new Date() });
```
-/

/-- The mutation performed by `assignIssue` on a found issue. -/
def assignIssue (i : Issue) (department : String) (officialId : Option UserId)
    (actor : UserId) (comment : Option String) (now : Nat) : Issue :=
  { i with
    assignedToDepartment := some department,
    assignedToOfficial := officialId,
    status := .assigned,
    statusHistory := i.statusHistory ++
      [⟨.assigned, some actor,
        comment.getD ("Issue assigned to " ++ department ++ " department" ++
          (if officialId.isSome then " and specific official" else "")), now⟩],
    notifications := i.notifications ++
      [⟨"Your issue has been assigned to the " ++ department ++ " department",
        "assignment", now, false⟩] }

/-! ## Report drafts and issue creation (`IssueController.createIssue`)

The slice below starts after body validation and media handling: the parsed
`locationData` (from a JSON string, a plain address string, or an object), the
alternate latitude/longitude body fields, and the construction of the new
document.  Fields of type `Option (Option ℚ)` model the two failure layers of
the source: the outer `none` is an absent or JS-falsy field, `some none` is a
present field whose `parseFloat` is `NaN`, and `some (some q)` parses to `q`. -/

/-- A parsed `locationData` value. -/
structure LocationData where
  coordinates : Option (List ℚ)
  address : Option String
  city : Option String
  state : Option String
  pincode : Option String
  lat : Option (Option ℚ)
  lng : Option (Option ℚ)
deriving DecidableEq, Repr

/-- A validated report draft as it reaches the creation logic: body fields
after destructuring, parsed location, alternate coordinate fields
(`latitude`/`lat` and `longitude`/`lng`/`long`), and accepted image URLs. -/
structure Draft where
  title : String
  description : String
  category : String
  priority : Option String
  location : Option LocationData
  rawLat : Option (Option ℚ)
  rawLng : Option (Option ℚ)
  images : List String
deriving DecidableEq, Repr

/-- The coordinate-derivation step: when `locationData` has no coordinates
array, derive `[lng, lat]` from the separate body fields if both are present
and numeric, otherwise from `locationData.lat`/`locationData.lng`. -/
def deriveCoordinates (ld : LocationData) (rawLat rawLng : Option (Option ℚ)) : LocationData :=
  if ld.coordinates.isSome then ld
  else
    match rawLat, rawLng with
    | some pla, some pln =>
        match pla, pln with
        | some la, some ln => { ld with coordinates := some [ln, la] }
        | _, _ => ld
    | _, _ =>
        match ld.lat, ld.lng with
        | some pla, some pln =>
            match pla, pln with
            | some la, some ln => { ld with coordinates := some [ln, la] }
            | _, _ => ld
        | _, _ => ld

/-- The new issue document built by `new Issue({...})` plus the schema defaults
(`status: 'pending'`, `votes: 0`, empty arrays) and the pre-save hook that
inserts `reportedBy` into `reporters`.  `id` stands for the fresh ObjectId
Mongo assigns to the new document. -/
def mkNewIssue (id : IssueId) (reportedBy : UserId) (d : Draft) (now : Nat)
    (ld : LocationData) (coords : List ℚ) : Issue :=
  let priority := d.priority.getD "low"
  { id := id,
    title := d.title,
    description := d.description,
    category := d.category,
    location := { coordinates := coords,
                  address := ld.address.getD "Address not specified",
                  city := ld.city, state := ld.state, pincode := ld.pincode },
    images := d.images,
    voiceNote := none,
    reportedBy := reportedBy,
    assignedToDepartment := none,
    assignedToOfficial := none,
    status := .pending,
    votes := 0,
    voters := [],
    priority := priority,
    statusHistory := [⟨.pending, none, "Issue reported by citizen", now⟩],
    notifications := [⟨"Your issue has been successfully reported and is under review",
      "status_change", now, false⟩],
    estimatedResolutionTime := calculateEstimatedResolutionTime d.category priority,
    actualResolutionTime := none,
    resolutionDetails := none,
    createdAt := now,
    mergedInto := none,
    duplicates := [],
    reporters := [reportedBy] }

/-- The creation operation `createIssue` after parsing: reject when no location or no 2-element
coordinates array survives derivation; substitute the placeholder address when
the address is missing; otherwise persist the new document. -/
def createIssue (id : IssueId) (reportedBy : UserId) (d : Draft) (now : Nat) :
    Except String Issue :=
  match d.location with
  | none => .error "Location coordinates required (lng,lat)"
  | some ld0 =>
      match (deriveCoordinates ld0 d.rawLat d.rawLng).coordinates with
      | none => .error "Location coordinates required (lng,lat)"
      | some coords =>
          if coords.length = 2 then
            .ok (mkNewIssue id reportedBy d now (deriveCoordinates ld0 d.rawLat d.rawLng) coords)
          else .error "Location coordinates required (lng,lat)"

/-- Processing one report against the issue store: `createIssue` never reads
the store; it always persists a fresh document, whose fresh ObjectId is
modelled by the store's size.  Returns the new store and the id the draft
resolved to. -/
def processReport (store : List Issue) (reportedBy : UserId) (d : Draft) (now : Nat) :
    Except String (List Issue × IssueId) :=
  match createIssue store.length reportedBy d now with
  | .error e => .error e
  | .ok issue => .ok (store ++ [issue], issue.id)

/-! ## Sequences of government mutations (assignment and status updates) -/

/-- One government mutation on an issue: `assignIssue` or `updateIssueStatus`
with their request parameters. -/
inductive IssueOp where
  | assign (department : String) (officialId : Option UserId) (actor : UserId)
      (comment : Option String) (now : Nat)
  | setStatus (status : Status) (actor : UserId) (comment : Option String)
      (resDescription : Option String) (resImages : Option (List String)) (now : Nat)
deriving DecidableEq, Repr

/-- Apply one mutation. -/
def applyOp (i : Issue) : IssueOp → Issue
  | .assign dep off actor c n => assignIssue i dep off actor c n
  | .setStatus s actor c rd ri n => updateIssueStatus i s actor c rd ri n

/-- Apply a sequence of mutations in order. -/
def applyOps (i : Issue) (ops : List IssueOp) : Issue := ops.foldl applyOp i

/-- The documented `statusHistory` invariant: non-empty, and the last entry's
status is the issue's current status. -/
def historyInvariant (i : Issue) : Prop :=
  i.statusHistory ≠ [] ∧
  i.statusHistory.getLast?.map HistoryEntry.status = some i.status

theorem getLast?_append_one {α : Type} (l : List α) (a : α) :
    (l ++ [a]).getLast? = some a := by
  rw [List.getLast?_append_cons]
  rfl

theorem applyOp_historyInvariant (i : Issue) (op : IssueOp) :
    historyInvariant (applyOp i op) := by
  cases op with
  | assign dep off actor c n =>
      show historyInvariant (assignIssue i dep off actor c n)
      refine ⟨by simp [assignIssue], ?_⟩
      simp [assignIssue, getLast?_append_one]
  | setStatus s actor c rd ri n =>
      show historyInvariant (updateIssueStatus i s actor c rd ri n)
      unfold updateIssueStatus historyInvariant
      split
      · exact ⟨by simp, by simp [getLast?_append_one]⟩
      · exact ⟨by simp, by simp [getLast?_append_one]⟩

theorem applyOps_historyInvariant (i : Issue) (ops : List IssueOp)
    (h : historyInvariant i) : historyInvariant (applyOps i ops) := by
  induction ops generalizing i with
  | nil => simpa [applyOps] using h
  | cons op rest ih =>
      simpa [applyOps] using ih (applyOp i op) (applyOp_historyInvariant i op)

theorem createIssue_ok_eq {id : IssueId} {u : UserId} {d : Draft} {t : Nat} {issue : Issue}
    (h : createIssue id u d t = .ok issue) :
    ∃ ld coords, issue = mkNewIssue id u d t ld coords := by
  unfold createIssue at h
  split at h
  · cases h
  · split at h
    · cases h
    · rename_i ld0 heq coords hcoords
      split at h
      · injection h with h'
        exact ⟨_, _, h'.symm⟩
      · cases h

/-- C9: an issue produced by `createIssue` and then mutated by any sequence of
`assignIssue` / `updateIssueStatus` operations keeps a non-empty
`statusHistory` whose last entry's status equals the current status. -/
theorem statusHistory_invariant_after_ops (id : IssueId) (u : UserId) (d : Draft)
    (t : Nat) (issue : Issue) (h : createIssue id u d t = .ok issue)
    (ops : List IssueOp) :
    (applyOps issue ops).statusHistory ≠ [] ∧
    (applyOps issue ops).statusHistory.getLast?.map HistoryEntry.status
      = some (applyOps issue ops).status := by
  have hinv : historyInvariant issue := by
    obtain ⟨ld, coords, rfl⟩ := createIssue_ok_eq h
    exact ⟨by simp [mkNewIssue], by simp [mkNewIssue]⟩
  exact applyOps_historyInvariant issue ops hinv

/-- A parsed location with coordinates and address. -/
def sampleLocation : LocationData :=
  { coordinates := some [(77 : ℚ), 13], address := some "MG Road", city := none,
    state := none, pincode := none, lat := none, lng := none }

/-- A valid report draft at `sampleLocation`. -/
def sampleDraft : Draft :=
  { title := "Pothole", description := "Large pothole near the junction",
    category := "Roads & Infrastructure", priority := none,
    location := some sampleLocation, rawLat := none, rawLng := none, images := [] }

/-- The issue document created for `sampleDraft` at time 1000 with id 0. -/
def sampleCreatedIssue : Issue := mkNewIssue 0 1 sampleDraft 1000 sampleLocation [(77 : ℚ), 13]

/-- C9 witness: the invariant after creating a concrete issue and running a
concrete assign-then-resolve sequence. -/
theorem statusHistory_invariant_after_ops_witness :
    (applyOps sampleCreatedIssue
        [IssueOp.assign "Roads" none 9 none 2000,
         IssueOp.setStatus .resolved 9 none none none 3000]).statusHistory ≠ [] ∧
    (applyOps sampleCreatedIssue
        [IssueOp.assign "Roads" none 9 none 2000,
         IssueOp.setStatus .resolved 9 none none none 3000]).statusHistory.getLast?.map
        HistoryEntry.status
      = some (applyOps sampleCreatedIssue
        [IssueOp.assign "Roads" none 9 none 2000,
         IssueOp.setStatus .resolved 9 none none none 3000]).status :=
  statusHistory_invariant_after_ops 0 1 sampleDraft 1000 sampleCreatedIssue rfl
    [IssueOp.assign "Roads" none 9 none 2000,
     IssueOp.setStatus .resolved 9 none none none 3000]

/-! ## C1: what happens to two reports at the same coordinates and category

`createIssue` builds and saves a fresh document unconditionally; it performs no
search of existing canonical issues, so a second identical draft yields a
second, distinct canonical issue. -/

theorem processReport_ok {store : List Issue} {u : UserId} {d : Draft} {t : Nat}
    {st' : List Issue} {i : IssueId}
    (h : processReport store u d t = .ok (st', i)) :
    i = store.length ∧ st'.length = store.length + 1 ∧
    st'.getLast?.map Issue.mergedInto = some none := by
  unfold processReport at h
  split at h
  · cases h
  · rename_i issue heq
    obtain ⟨ld, coords, rfl⟩ := createIssue_ok_eq heq
    injection h with h'
    have h1 : store ++ [mkNewIssue store.length u d t ld coords] = st' := congrArg Prod.fst h'
    have h2 : (mkNewIssue store.length u d t ld coords).id = i := congrArg Prod.snd h'
    subst h1
    refine ⟨by simpa [mkNewIssue] using h2.symm, by simp, ?_⟩
    simp [getLast?_append_one, mkNewIssue]

/-- C1 counterexample run: the first report on an empty store. -/
def c1Store1 : List Issue := [mkNewIssue 0 1 sampleDraft 1000 sampleLocation [(77 : ℚ), 13]]

/-- C1 counterexample run: the second, identical report processed after the
first. -/
def c1Store2 : List Issue :=
  c1Store1 ++ [mkNewIssue 1 2 sampleDraft 2000 sampleLocation [(77 : ℚ), 13]]

/-- C1 counterexample: two draft reports with the same coordinates and
category, processed in sequence; the second resolves to the fresh id 1, not to
the first report's canonical id 0 — a new canonical issue (`mergedInto` unset)
is created instead of merging. -/
theorem second_identical_report_gets_new_id :
    processReport [] 1 sampleDraft 1000 = .ok (c1Store1, 0) ∧
    processReport c1Store1 2 sampleDraft 2000 = .ok (c1Store2, 1) ∧
    (1 : IssueId) ≠ 0 ∧
    (mkNewIssue 1 2 sampleDraft 2000 sampleLocation [(77 : ℚ), 13]).mergedInto = none :=
  ⟨rfl, rfl, by decide, rfl⟩

/-- C1 (amended): processing any report always creates a fresh canonical
issue — the id the second report resolves to differs from the first report's
id, and the newly stored issue has `mergedInto` unset; no duplicate clustering
happens at creation. -/
theorem second_report_creates_new_canonical (store st1 st2 : List Issue)
    (u1 u2 : UserId) (d1 d2 : Draft) (t1 t2 : Nat) (i1 i2 : IssueId)
    (h1 : processReport store u1 d1 t1 = .ok (st1, i1))
    (h2 : processReport st1 u2 d2 t2 = .ok (st2, i2)) :
    i2 ≠ i1 ∧ st2.getLast?.map Issue.mergedInto = some none := by
  obtain ⟨hi1, hlen1, _⟩ := processReport_ok h1
  obtain ⟨hi2, _, hlast2⟩ := processReport_ok h2
  refine ⟨?_, hlast2⟩
  rw [hi1, hi2, hlen1]
  exact Nat.succ_ne_self store.length

/-- C1 amended-claim witness: the amended statement at the concrete
counterexample run. -/
theorem second_report_creates_new_canonical_witness :
    (1 : IssueId) ≠ 0 ∧ c1Store2.getLast?.map Issue.mergedInto = some none :=
  second_report_creates_new_canonical [] c1Store1 c1Store2 1 2 sampleDraft sampleDraft
    1000 2000 0 1 rfl rfl

/-! ## C10: drafts with coordinates but no address -/

/-- C10: a draft whose parsed location has a 2-element coordinates array but no
address is not rejected: the issue is created with the placeholder address. -/
theorem missing_address_gets_placeholder (id : IssueId) (u : UserId) (d : Draft)
    (t : Nat) (ld : LocationData) (coords : List ℚ)
    (hloc : d.location = some ld) (hcoords : ld.coordinates = some coords)
    (hlen : coords.length = 2) (haddr : ld.address = none) :
    ∃ issue, createIssue id u d t = .ok issue ∧
      issue.location.address = "Address not specified" := by
  have hld : deriveCoordinates ld d.rawLat d.rawLng = ld := by
    unfold deriveCoordinates
    simp [hcoords]
  refine ⟨mkNewIssue id u d t ld coords, ?_, ?_⟩
  · unfold createIssue
    rw [hloc]
    simp only [hld, hcoords, hlen]
    simp
  · simp [mkNewIssue, haddr]

/-- A parsed location with valid coordinates but no address field. -/
def noAddressLocation : LocationData :=
  { coordinates := some [(77 : ℚ), 13], address := none, city := none,
    state := none, pincode := none, lat := none, lng := none }

/-- A report draft whose location has coordinates but no address. -/
def noAddressDraft : Draft :=
  { title := "Streetlight out", description := "Dark stretch at night",
    category := "Street Lighting", priority := none,
    location := some noAddressLocation, rawLat := none, rawLng := none, images := [] }

/-- C10 witness: the placeholder-address theorem at the concrete draft. -/
theorem missing_address_gets_placeholder_witness :
    ∃ issue, createIssue 0 4 noAddressDraft 500 = .ok issue ∧
      issue.location.address = "Address not specified" :=
  missing_address_gets_placeholder 0 4 noAddressDraft 500 noAddressLocation
    [(77 : ℚ), 13] rfl rfl (by decide) rfl

/-! ## Government listings (`getAllIssues` filter, `getAllIssuesFull`)

`getAllIssues` builds a Mongo filter object from the query parameters:

```js
const filter = {};
if (status) filter.status = status;
if (category) filter.category = category;
if (priority) filter.priority = priority;
if (assignedTo) filter['assignedTo.official'] = assignedTo;
if (reportedBy) filter.reportedBy = reportedBy;
if (dateFrom || dateTo) { filter.createdAt = { $gte..., $lte... }; }
if (search) { filter.$or = [title, description, location.address, category ~ /search/i]; }
```

No clause over `mergedInto` is ever added.  `getAllIssuesFull` runs
`Issue.find({}).sort({ createdAt: -1 })` — again with no `mergedInto` clause.
(The optional `$near` geospatial clause is delegated to the database's
2dsphere index and is orthogonal to the duplicate-exclusion question; the
queries below do not use it.)  `none` models an absent or JS-falsy (empty
string) query parameter. -/

/-- Byte-level check that `needle` is a prefix of `hay`. -/
def charsStartWith : List Char → List Char → Bool
  | [], _ => true
  | _ :: _, [] => false
  | a :: as, b :: bs => a == b && charsStartWith as bs

/-- Byte-level substring check. -/
def charsContain (needle : List Char) : List Char → Bool
  | [] => needle.isEmpty
  | c :: rest => charsStartWith needle (c :: rest) || charsContain needle rest

/-- Case-insensitive substring match, modelling `$regex: search, $options: 'i'`
for search strings without regex metacharacters. -/
def iContains (hay needle : String) : Bool :=
  charsContain needle.toLower.toList hay.toLower.toList

/-- Query parameters of `getAllIssues` that feed the filter object. -/
structure ListQuery where
  status : Option Status
  category : Option String
  priority : Option String
  assignedTo : Option UserId
  reportedBy : Option UserId
  search : Option String
  dateFrom : Option Nat
  dateTo : Option Nat
deriving DecidableEq, Repr

/-- The predicate the built filter object imposes on a stored issue document. -/
def matchesFilter (q : ListQuery) (i : Issue) : Bool :=
  (match q.status with | none => true | some s => i.status = s) &&
  (match q.category with | none => true | some c => i.category = c) &&
  (match q.priority with | none => true | some p => i.priority = p) &&
  (match q.assignedTo with | none => true | some a => i.assignedToOfficial = some a) &&
  (match q.reportedBy with | none => true | some r => i.reportedBy = r) &&
  (match q.dateFrom with | none => true | some dfrom => dfrom ≤ i.createdAt) &&
  (match q.dateTo with | none => true | some dto => i.createdAt ≤ dto) &&
  (match q.search with
   | none => true
   | some s => iContains i.title s || iContains i.description s ||
       iContains i.location.address s || iContains i.category s)

/-- A listing request with every filter parameter absent. -/
def emptyListQuery : ListQuery :=
  { status := none, category := none, priority := none, assignedTo := none,
    reportedBy := none, search := none, dateFrom := none, dateTo := none }

/-- Full listing `getAllIssuesFull`: `Issue.find({}).sort({ createdAt: -1 })` — every stored
issue, newest first. -/
def getAllIssuesFull (store : List Issue) : List Issue :=
  store.insertionSort (fun a b => b.createdAt ≤ a.createdAt)

/-- A duplicate: the same issue merged into canonical issue 0. -/
def mergedDuplicate : Issue := { sampleVoteIssue with id := 1, mergedInto := some 0 }

/-- A store holding canonical issue 0 and its merged duplicate. -/
def dupStore : List Issue := [sampleVoteIssue, mergedDuplicate]

/-- C4 failing input: an issue with `mergedInto` set satisfies the filter built
from a parameterless listing request and is returned by the full government
listing — duplicates are not excluded from canonical-only listings. -/
theorem merged_duplicate_appears_in_listings :
    mergedDuplicate.mergedInto = some 0 ∧
    matchesFilter emptyListQuery mergedDuplicate = true ∧
    mergedDuplicate ∈ getAllIssuesFull dupStore := by
  refine ⟨rfl, by decide, ?_⟩
  have hperm := List.perm_insertionSort
    (fun a b : Issue => b.createdAt ≤ a.createdAt) dupStore
  rw [getAllIssuesFull]
  exact hperm.mem_iff.mpr (by simp [dupStore])

end CivicIssues
